import Mathlib

/-!
Verification development for the Konnect generic operations core
(`Create` / `Update` / `Delete` dispatch, staleness gate, operation
telemetry and error normalisation) of the kong-gateway-operator
repository.  The definitions below are a shallow embedding of the Go
source: Go `time.Duration` / `time.Time` values are modelled as `Int`
nanoseconds with explicit 64-bit wraparound where the source performs
raw `int64` arithmetic, fallible calls return `Option`, and the
kind-specific remote adapters (whose bodies live outside the embedded
files) are passed in as explicit function parameters.
-/

set_option autoImplicit false

namespace KonnectOps

/-- Condition type constant from conditions.go: the type of the condition
that indicates whether the entity has been programmed in Konnect. -/
def KonnectEntityProgrammedConditionType : String := "Programmed"

/-- Reason constant from conditions.go, set when the entity has been
programmed in Konnect. -/
def KonnectEntityProgrammedReasonProgrammed : String := "Programmed"

/-- Reason constant from conditions.go, set when the entity has failed to
be programmed in Konnect. -/
def KonnectEntityProgrammedReasonKonnectAPIOpFailed : String := "KonnectAPIOpFailed"

/-- Constant metav1.ConditionTrue: condition statuses are strings in the
Kubernetes API. -/
def ConditionTrue : String := "True"

/-- A metav1.Condition.  Times are modelled as integer nanoseconds since
the epoch; generations as integers (Go int64). -/
structure Condition where
  condType : String
  status : String
  reason : String
  message : String
  observedGeneration : Int
  lastTransitionTime : Int
deriving DecidableEq

/-- The closed set of entity kinds appearing in the type switches of the
source (the five members of the SupportedKonnectEntityType union), plus
one constructor standing for a member of the union that has no case in
the switches, which makes the source's `default` branches reachable. -/
inductive EntityKind
  | konnectControlPlane
  | kongService
  | kongRoute
  | kongConsumer
  | kongConsumerGroup
  | unregistered
deriving DecidableEq

/-- The Konnect status carried by an entity; `id` is the remote identity
(Konnect ID), empty until first successful create. -/
structure KonnectEntityStatus where
  id : String
deriving DecidableEq

/-- An entity of the union type, seen through the EntityType interface:
object meta (namespace, name, generation), conditions, and an optional
(Go: possibly nil pointer) Konnect status. -/
structure Entity where
  kind : EntityKind
  namespc : String
  name : String
  generation : Int
  conditions : List Condition
  konnectStatus : Option KonnectEntityStatus
deriving DecidableEq

/-- GetKonnectID on a possibly-nil status pointer.  The getter's body is
not under src; nil-safety follows the standard generated-getter pattern
and the spec's "optional remote identity string (empty until first
successful create)". -/
def getKonnectID : Option KonnectEntityStatus → String
  | none => ""
  | some s => s.id

/-- Modelled from the spec: k8sutils.GetCondition is not under src; per
the spec's Condition Store interface it returns the entity's condition
with the given type together with a found flag. -/
def getCondition (t : String) (conds : List Condition) : Option Condition :=
  conds.find? (fun c => c.condType == t)

/-- client.ObjectKey (types.NamespacedName). -/
structure ObjectKey where
  namespc : String
  name : String
deriving DecidableEq

/-- client.ObjectKeyFromObject: the namespace/name key of the entity. -/
def objectKeyFromObject (e : Entity) : ObjectKey :=
  { namespc := e.namespc, name := e.name }

/-- Rendering of a types.NamespacedName through its String method and the
%s verb: namespace, slash, name. -/
def ObjectKey.render (k : ObjectKey) : String :=
  k.namespc ++ "/" ++ k.name

/-- A Go error value: either a base error or a wrapping error produced by
fmt.Errorf with the %w verb at the end of the format, whose message is
the formatted text followed by the wrapped error's message. -/
inductive GoError
  | mk (msg : String)
  | wrap (pre : String) (cause : GoError)
deriving DecidableEq

/-- The Error() string of a Go error value. -/
def GoError.message : GoError → String
  | .mk m => m
  | .wrap p c => p ++ c.message

/-- The unwrap chain of a Go error, the error itself included: the errors
reachable by errors.Is / errors.Unwrap style cause-chain inspection. -/
def GoError.chain : GoError → List GoError
  | .mk m => [.mk m]
  | .wrap p c => .wrap p c :: c.chain

/-- The Op type: operation type of a Konnect entity operation. -/
inductive Op
  | create
  | update
  | delete
deriving DecidableEq

/-- The string value of each Op constant ("create" / "update" / "delete"). -/
def Op.render : Op → String
  | .create => "create"
  | .update => "update"
  | .delete => "delete"

/-- Rendering of the %T verb on a (pointer-typed) entity of each kind of
the union.  The name for the `unregistered` stand-in kind is a
placeholder; no claim depends on the specific strings. -/
def goTypeName : EntityKind → String
  | .konnectControlPlane => "*v1alpha1.KonnectControlPlane"
  | .kongService => "*v1alpha1.KongService"
  | .kongRoute => "*v1alpha1.KongRoute"
  | .kongConsumer => "*v1.KongConsumer"
  | .kongConsumerGroup => "*v1beta1.KongConsumerGroup"
  | .unregistered => "*v1alpha1.UnregisteredEntity"

/-- Modelled from the spec: entityTypeName, referenced by the telemetry
routine, is not under src; per the spec the telemetry record is keyed by
entity kind, so the model maps each kind to a name.  No claim depends on
the specific strings. -/
def entityTypeName : EntityKind → String
  | .konnectControlPlane => "KonnectControlPlane"
  | .kongService => "KongService"
  | .kongRoute => "KongRoute"
  | .kongConsumer => "KongConsumer"
  | .kongConsumerGroup => "KongConsumerGroup"
  | .unregistered => "UnregisteredEntity"

/-- One structured telemetry record as emitted by logOpComplete: the
operation, the entity type name and the Konnect ID read from the entity
at emission time (the duration field carries no information the claims
inspect and is omitted). -/
structure TelemetryRecord where
  op : Op
  typeName : String
  konnectID : String
deriving DecidableEq

/-- logOpComplete: returns without emitting when GetKonnectStatus is nil,
otherwise emits exactly one record with the entity's current Konnect ID. -/
def logOpComplete (op : Op) (e : Entity) : List TelemetryRecord :=
  match e.konnectStatus with
  | none => []
  | some s => [{ op := op, typeName := entityTypeName e.kind, konnectID := s.id }]

/-- Two's-complement wraparound of an integer into the int64 range, the
effect of raw Go int64 arithmetic such as the subtraction
syncPeriod - timeFromLastUpdate. -/
def wrap64 (x : Int) : Int :=
  (x + 2 ^ 63) % 2 ^ 64 - 2 ^ 63

/-- time.Since on a wall-clock time: the exact difference when it is
representable as an int64 duration, saturating at the minimal / maximal
duration otherwise (time.Time.Sub's overflow handling). -/
def timeSince (now t : Int) : Int :=
  if now - t < -(2 ^ 63) then -(2 ^ 63)
  else if 2 ^ 63 - 1 < now - t then 2 ^ 63 - 1
  else now - t

/-- The kind-indexed families of remote adapters (createControlPlane,
updateService, deleteRoute, ...), whose bodies are outside the embedded
source.  Each adapter may mutate the entity (e.g. set the Konnect ID on
create) and may fail. -/
structure Adapters where
  create : EntityKind → Entity → Entity × Option GoError
  update : EntityKind → Entity → Entity × Option GoError
  delete : EntityKind → Entity → Entity × Option GoError

/-- Which pointer Create returns: the very handle it was given, or nil. -/
inductive RetPtr
  | same
  | null
deriving DecidableEq

/-- Everything observable about one Create call: the returned pointer,
the returned error, whether a kind-specific adapter ran, the telemetry
records emitted, and the entity's state when the call returns. -/
structure CreateResult where
  ret : RetPtr
  err : Option GoError
  adapterInvoked : Bool
  telemetry : List TelemetryRecord
  final : Entity
deriving DecidableEq

/-- Everything observable about one Delete call. -/
structure DeleteResult where
  err : Option GoError
  adapterInvoked : Bool
  telemetry : List TelemetryRecord
  final : Entity
deriving DecidableEq

/-- Everything observable about one Update call; requeueAfter is the
RequeueAfter field of the returned ctrl.Result. -/
structure UpdateResult where
  requeueAfter : Int
  err : Option GoError
  adapterInvoked : Bool
  telemetry : List TelemetryRecord
  final : Entity
deriving DecidableEq

/-- The unsupported-entity-type error of the default branches:
fmt.Errorf with "unsupported entity type %T". -/
def unsupportedEntityTypeError (k : EntityKind) : GoError :=
  .mk ("unsupported entity type " ++ goTypeName k)

/-- The missing-Konnect-ID error of Delete: fmt.Errorf with
"can't delete %T %s when it does not have the Konnect ID". -/
def cantDeleteError (e : Entity) : GoError :=
  .mk ("can't delete " ++ goTypeName e.kind ++ " " ++ (objectKeyFromObject e).render
    ++ " when it does not have the Konnect ID")

/-- The missing-Konnect-ID error of Update: fmt.Errorf with
"can't update %T %s when it does not have the Konnect ID". -/
def cantUpdateError (e : Entity) : GoError :=
  .mk ("can't update " ++ goTypeName e.kind ++ " " ++ (objectKeyFromObject e).render
    ++ " when it does not have the Konnect ID")

/-- Create: the telemetry defer is registered at the top of the function,
so it runs on every path, reading the entity's state at return time
(after any adapter mutation).  Each case of the type switch returns the
input pointer `e` together with the adapter's error; the default branch
returns nil and the unsupported-entity-type error. -/
def Create (ad : Adapters) (e : Entity) : CreateResult :=
  match e.kind with
  | .konnectControlPlane =>
    let r := ad.create .konnectControlPlane e
    { ret := .same, err := r.2, adapterInvoked := true,
      telemetry := logOpComplete .create r.1, final := r.1 }
  | .kongService =>
    let r := ad.create .kongService e
    { ret := .same, err := r.2, adapterInvoked := true,
      telemetry := logOpComplete .create r.1, final := r.1 }
  | .kongRoute =>
    let r := ad.create .kongRoute e
    { ret := .same, err := r.2, adapterInvoked := true,
      telemetry := logOpComplete .create r.1, final := r.1 }
  | .kongConsumer =>
    let r := ad.create .kongConsumer e
    { ret := .same, err := r.2, adapterInvoked := true,
      telemetry := logOpComplete .create r.1, final := r.1 }
  | .kongConsumerGroup =>
    let r := ad.create .kongConsumerGroup e
    { ret := .same, err := r.2, adapterInvoked := true,
      telemetry := logOpComplete .create r.1, final := r.1 }
  | .unregistered =>
    { ret := .null, err := some (unsupportedEntityTypeError e.kind), adapterInvoked := false,
      telemetry := logOpComplete .create e, final := e }

/-- Delete: the Konnect-ID precondition is checked before the telemetry
defer is registered, so the precondition-failure path emits no record;
then the type switch dispatches, the default branch failing with the
unsupported-entity-type error (the defer, registered before the switch,
still runs there). -/
def Delete (ad : Adapters) (e : Entity) : DeleteResult :=
  if getKonnectID e.konnectStatus = "" then
    { err := some (cantDeleteError e), adapterInvoked := false, telemetry := [], final := e }
  else
    match e.kind with
    | .konnectControlPlane =>
      let r := ad.delete .konnectControlPlane e
      { err := r.2, adapterInvoked := true,
        telemetry := logOpComplete .delete r.1, final := r.1 }
    | .kongService =>
      let r := ad.delete .kongService e
      { err := r.2, adapterInvoked := true,
        telemetry := logOpComplete .delete r.1, final := r.1 }
    | .kongRoute =>
      let r := ad.delete .kongRoute e
      { err := r.2, adapterInvoked := true,
        telemetry := logOpComplete .delete r.1, final := r.1 }
    | .kongConsumer =>
      let r := ad.delete .kongConsumer e
      { err := r.2, adapterInvoked := true,
        telemetry := logOpComplete .delete r.1, final := r.1 }
    | .kongConsumerGroup =>
      let r := ad.delete .kongConsumerGroup e
      { err := r.2, adapterInvoked := true,
        telemetry := logOpComplete .delete r.1, final := r.1 }
    | .unregistered =>
      { err := some (unsupportedEntityTypeError e.kind), adapterInvoked := false,
        telemetry := logOpComplete .delete e, final := e }

/-- timeFromLastUpdate: time.Since of the Programmed condition's last
transition time (Go computes it from the zero time when the condition is
absent; it is then only read inside the guard, which requires the
condition to be present). -/
def timeFromLastUpdate (now : Int) (e : Entity) : Int :=
  match getCondition KonnectEntityProgrammedConditionType e.conditions with
  | some c => timeSince now c.lastTransitionTime
  | none => timeSince now 0

/-- The freshness guard of Update, exactly the four-conjunct condition of
the source: the Programmed condition is present, its status is True, its
reason is the canonical Programmed reason, its observed generation equals
the entity's generation, and the elapsed time since its last transition
is at most the sync period. -/
def freshGuard (syncPeriod now : Int) (e : Entity) : Bool :=
  match getCondition KonnectEntityProgrammedConditionType e.conditions with
  | some c =>
    decide (c.status = ConditionTrue
      ∧ c.reason = KonnectEntityProgrammedReasonProgrammed
      ∧ c.observedGeneration = e.generation
      ∧ timeFromLastUpdate now e ≤ syncPeriod)
  | none => false

/-- Update: first the freshness guard (before any Konnect-ID check) with
an early return carrying the remaining sync window as RequeueAfter; then
the Konnect-ID precondition; only then is the telemetry defer registered
and the type switch dispatched, every dispatch path returning a zero
ctrl.Result. -/
def Update (ad : Adapters) (syncPeriod now : Int) (e : Entity) : UpdateResult :=
  if freshGuard syncPeriod now e then
    { requeueAfter := wrap64 (syncPeriod - timeFromLastUpdate now e), err := none,
      adapterInvoked := false, telemetry := [], final := e }
  else if getKonnectID e.konnectStatus = "" then
    { requeueAfter := 0, err := some (cantUpdateError e), adapterInvoked := false,
      telemetry := [], final := e }
  else
    match e.kind with
    | .konnectControlPlane =>
      let r := ad.update .konnectControlPlane e
      { requeueAfter := 0, err := r.2, adapterInvoked := true,
        telemetry := logOpComplete .update r.1, final := r.1 }
    | .kongService =>
      let r := ad.update .kongService e
      { requeueAfter := 0, err := r.2, adapterInvoked := true,
        telemetry := logOpComplete .update r.1, final := r.1 }
    | .kongRoute =>
      let r := ad.update .kongRoute e
      { requeueAfter := 0, err := r.2, adapterInvoked := true,
        telemetry := logOpComplete .update r.1, final := r.1 }
    | .kongConsumer =>
      let r := ad.update .kongConsumer e
      { requeueAfter := 0, err := r.2, adapterInvoked := true,
        telemetry := logOpComplete .update r.1, final := r.1 }
    | .kongConsumerGroup =>
      let r := ad.update .kongConsumerGroup e
      { requeueAfter := 0, err := r.2, adapterInvoked := true,
        telemetry := logOpComplete .update r.1, final := r.1 }
    | .unregistered =>
      { requeueAfter := 0, err := some (unsupportedEntityTypeError e.kind),
        adapterInvoked := false, telemetry := logOpComplete .update e, final := e }

/-- Rendering of the %T verb applied to a client.ObjectKey value: the
result depends only on the argument's Go type, so it is the constant
type name for every key. -/
def goFmtTypeOfObjectKey (_ : ObjectKey) : String := "types.NamespacedName"

/-- Go double-quoting of a string (the %q rendering of a string value;
escape sequences inside the quoted text are immaterial to the claims). -/
def quoteGo (s : String) : String := "\"" ++ s ++ "\""

/-- Model of the fmt %q rendering of one condition struct: fmt applies
the verb recursively to the fields, quoting the strings.  Integer fields
are rendered by their value (fmt renders integers under %q as rune
literals; the exact spelling is immaterial to the claims). -/
def goFmtQCondition (c : Condition) : String :=
  "\x7b" ++ quoteGo c.condType ++ " " ++ quoteGo c.status ++ " " ++ quoteGo c.reason
    ++ " " ++ quoteGo c.message ++ " " ++ toString c.observedGeneration ++ " "
    ++ toString c.lastTransitionTime ++ "\x7d"

/-- Model of the fmt %q rendering of a pointer to an entity struct: fmt
dereferences a top-level pointer (printing an ampersand) and applies the
verb recursively to each field, quoting every string field individually.
The real API structs carry further fields (TypeMeta, the full spec and
status); the model keeps the fields of the embedded entity.  What the
claims rely on is only that the field values appear as separately
rendered fields of a struct dump, never as a namespace-slash-name key. -/
def goFmtQEntity (e : Entity) : String :=
  "&\x7b" ++ quoteGo e.namespc ++ " " ++ quoteGo e.name ++ " " ++ toString e.generation
    ++ " [" ++ String.intercalate " " (e.conditions.map goFmtQCondition) ++ "] "
    ++ (match e.konnectStatus with
        | none => "<nil>"
        | some s => "\x7b" ++ quoteGo s.id ++ "\x7d")
    ++ "\x7d"

/-- wrapErrIfKonnectOpFailed: nil-error calls return nil; otherwise the
adapter error is wrapped with fmt.Errorf.  With a nil entity the format
is "failed to %s for %T: %w" applied to (op, e, err), so the message
names only the operation and the entity's type.  With a non-nil entity
the format is "failed to %s for %T %q: %w" applied to
(op, client.ObjectKeyFromObject(e), e, err): the object key is the
argument of the %T verb and the entity is the argument of the %q verb.
The kind argument stands for the static type parameter T, which the %T
verb of the nil branch reads. -/
def wrapErrIfKonnectOpFailed (kind : EntityKind) (err : Option GoError) (op : Op)
    (e : Option Entity) : Option GoError :=
  match err with
  | none => none
  | some err =>
    match e with
    | none =>
      some (.wrap ("failed to " ++ op.render ++ " for " ++ goTypeName kind ++ ": ") err)
    | some x =>
      some (.wrap ("failed to " ++ op.render ++ " for "
        ++ goFmtTypeOfObjectKey (objectKeyFromObject x) ++ " "
        ++ goFmtQEntity x ++ ": ") err)

/-- Modelled from the spec: the normalized-message shape the spec
describes for a known remote identity, with the entity type as the %T
argument and the object key as the quoted value — the argument order of
the neighbouring missing-Konnect-ID messages of the source. -/
def wrapErrSpecMessage (op : Op) (e : Entity) : String :=
  "failed to " ++ op.render ++ " for " ++ goTypeName e.kind ++ " "
    ++ quoteGo (objectKeyFromObject e).render ++ ": "

/-- Matching of a pattern against the head of a character list. -/
def charListHeadMatch : List Char → List Char → Bool
  | [], _ => true
  | _ :: _, [] => false
  | a :: as, b :: bs => a == b && charListHeadMatch as bs

/-- Containment of a pattern anywhere in a character list. -/
def charListHas (pat : List Char) : List Char → Bool
  | [] => charListHeadMatch pat []
  | c :: rest => charListHeadMatch pat (c :: rest) || charListHas pat rest

/-- Substring containment on strings. -/
def strContains (s pat : String) : Bool :=
  charListHas pat.toList s.toList

/-- The message of an optional error (empty when absent). -/
def msgOf : Option GoError → String
  | none => ""
  | some w => w.message

/-- Adapters that succeed and leave the entity unchanged; used to
instantiate universally quantified theorems at concrete inputs. -/
def idAdapters : Adapters where
  create := fun _ e => (e, none)
  update := fun _ e => (e, none)
  delete := fun _ e => (e, none)

/-- A Programmed condition with the canonical reason, status True, the
given observed generation and last transition time. -/
def programmedCond (gen ltt : Int) : Condition :=
  { condType := "Programmed", status := "True", reason := "Programmed",
    message := "", observedGeneration := gen, lastTransitionTime := ltt }

/-- A KongService entity with a fresh Programmed condition and an empty
Konnect ID. -/
def eFreshNoID : Entity :=
  { kind := .kongService, namespc := "default", name := "svc", generation := 1,
    conditions := [programmedCond 1 0], konnectStatus := some { id := "" } }

/-- A KongService entity with a fresh Programmed condition and Konnect ID
"abc". -/
def eFresh : Entity :=
  { kind := .kongService, namespc := "default", name := "svc", generation := 1,
    conditions := [programmedCond 1 0], konnectStatus := some { id := "abc" } }

/-- A KongService entity with no conditions and Konnect ID "abc". -/
def eNoCond : Entity :=
  { kind := .kongService, namespc := "default", name := "svc", generation := 1,
    conditions := [], konnectStatus := some { id := "abc" } }

/-- A KongService entity whose Programmed condition observed generation 1
but whose generation was bumped to 2, with Konnect ID "abc". -/
def eBumped : Entity :=
  { kind := .kongService, namespc := "default", name := "svc", generation := 2,
    conditions := [programmedCond 1 0], konnectStatus := some { id := "abc" } }

/-- An entity of the stand-in unregistered kind, with a fresh Programmed
condition and a non-empty Konnect ID. -/
def eUnreg : Entity :=
  { kind := .unregistered, namespc := "default", name := "u", generation := 1,
    conditions := [programmedCond 1 0], konnectStatus := some { id := "u1" } }

/-- An entity whose Programmed condition's last transition time lies one
nanosecond in the future of the clock reading zero. -/
def eFuture : Entity :=
  { kind := .kongService, namespc := "default", name := "svc", generation := 1,
    conditions := [programmedCond 1 1], konnectStatus := some { id := "abc" } }

/-- A KongService entity with nil Konnect status. -/
def eNilStatus : Entity :=
  { kind := .kongService, namespc := "default", name := "svc", generation := 1,
    conditions := [], konnectStatus := none }

/-- Adapters that fail deterministically, leaving the entity unchanged. -/
def failAdapters : Adapters where
  create := fun _ e => (e, some (.mk "boom"))
  update := fun _ e => (e, some (.mk "boom"))
  delete := fun _ e => (e, some (.mk "boom"))

/-- The normalized error produced for an adapter failure during Update on
the entity with key default/svc and Konnect ID "abc". -/
def c4actual : Option GoError :=
  wrapErrIfKonnectOpFailed .kongService (some (.mk "remote API failure")) .update (some eFresh)

/- ------------------------------------------------------------------ -/
/- Helper lemmas                                                       -/
/- ------------------------------------------------------------------ -/

theorem wrap64_eq_self {x : Int} (h1 : -(2 ^ 63) ≤ x) (h2 : x < 2 ^ 63) :
    wrap64 x = x := by
  unfold wrap64
  have h3 : (0 : Int) ≤ x + 2 ^ 63 := by linarith
  have h64 : (2 : Int) ^ 64 = 2 ^ 63 + 2 ^ 63 := by norm_num
  have h4 : x + 2 ^ 63 < 2 ^ 64 := by linarith
  rw [Int.emod_eq_of_lt h3 h4]
  ring

theorem freshGuard_iff (syncPeriod now : Int) (e : Entity) :
    freshGuard syncPeriod now e = true ↔
      ∃ c, getCondition KonnectEntityProgrammedConditionType e.conditions = some c ∧
        c.status = ConditionTrue ∧
        c.reason = KonnectEntityProgrammedReasonProgrammed ∧
        c.observedGeneration = e.generation ∧
        timeSince now c.lastTransitionTime ≤ syncPeriod := by
  cases hc : getCondition KonnectEntityProgrammedConditionType e.conditions with
  | none => simp [freshGuard, hc]
  | some c => simp [freshGuard, timeFromLastUpdate, hc, and_assoc]

theorem freshGuard_elapsed_le {syncPeriod now : Int} {e : Entity}
    (h : freshGuard syncPeriod now e = true) :
    timeFromLastUpdate now e ≤ syncPeriod := by
  unfold freshGuard at h
  cases hc : getCondition KonnectEntityProgrammedConditionType e.conditions with
  | none => rw [hc] at h; cases h
  | some c =>
    rw [hc] at h
    simp only [decide_eq_true_eq] at h
    exact h.2.2.2

theorem update_fresh_eq (ad : Adapters) {syncPeriod now : Int} {e : Entity}
    (h : freshGuard syncPeriod now e = true) :
    Update ad syncPeriod now e =
      { requeueAfter := wrap64 (syncPeriod - timeFromLastUpdate now e), err := none,
        adapterInvoked := false, telemetry := [], final := e } := by
  simp [Update, h]

theorem update_noop_iff (ad : Adapters) (syncPeriod now : Int) (e : Entity) :
    ((Update ad syncPeriod now e).adapterInvoked = false ∧
      (Update ad syncPeriod now e).err = none) ↔
      freshGuard syncPeriod now e = true := by
  cases hf : freshGuard syncPeriod now e with
  | true => simp [update_fresh_eq ad hf]
  | false =>
    by_cases hid : getKonnectID e.konnectStatus = ""
    · simp [Update, hf, hid]
    · rcases e with ⟨k, ns, nm, g, cs, st⟩
      cases k <;> simp_all [Update]

theorem update_dispatch_invoked (ad : Adapters) {syncPeriod now : Int} {e : Entity}
    (hf : freshGuard syncPeriod now e = false)
    (hid : getKonnectID e.konnectStatus ≠ "") (hk : e.kind ≠ .unregistered) :
    (Update ad syncPeriod now e).adapterInvoked = true := by
  rcases e with ⟨k, ns, nm, g, cs, st⟩
  cases k <;> first
    | exact absurd rfl hk
    | simp_all [Update]

theorem update_requeue_zero_of_invoked (ad : Adapters) {syncPeriod now : Int} {e : Entity}
    (h : (Update ad syncPeriod now e).adapterInvoked = true) :
    (Update ad syncPeriod now e).requeueAfter = 0 := by
  cases hf : freshGuard syncPeriod now e with
  | true => rw [update_fresh_eq ad hf] at h; cases h
  | false =>
    by_cases hid : getKonnectID e.konnectStatus = ""
    · simp [Update, hf, hid]
    · rcases e with ⟨k, ns, nm, g, cs, st⟩
      cases k <;> simp_all [Update]

theorem logOpComplete_length {op : Op} {e : Entity}
    (h : e.konnectStatus.isSome = true) :
    (logOpComplete op e).length = 1 := by
  cases hs : e.konnectStatus with
  | none => rw [hs] at h; cases h
  | some s => simp [logOpComplete, hs]

theorem logOpComplete_eq_nil {op : Op} {e : Entity}
    (h : e.konnectStatus = none) :
    logOpComplete op e = [] := by
  simp [logOpComplete, h]

theorem GoError.self_mem_chain (er : GoError) : er ∈ er.chain := by
  cases er <;> simp [GoError.chain]

/- ------------------------------------------------------------------ -/
/- Claim theorems                                                      -/
/- ------------------------------------------------------------------ -/

/-- C1, counterexample: an entity whose Konnect ID is empty but whose
Programmed condition is fresh makes Update return nil error (and no
adapter runs), refuting "Update ... returns a MissingRemoteIdentity
error ... regardless of the entity's conditions". -/
theorem C1_counterexample :
    getKonnectID eFreshNoID.konnectStatus = "" ∧
    (Update idAdapters 100 50 eFreshNoID).err = none ∧
    (Update idAdapters 100 50 eFreshNoID).adapterInvoked = false := by
  decide

/-- C1 (amended): for every entity whose Konnect ID is empty, Delete
always returns the missing-Konnect-ID error and invokes no adapter;
Update invokes no adapter either, and returns the missing-Konnect-ID
error unless the freshness guard holds, in which case it returns nil
error (the freshness check precedes the identity check). -/
theorem C1_missing_id_no_adapter (ad : Adapters) (syncPeriod now : Int) (e : Entity)
    (h : getKonnectID e.konnectStatus = "") :
    (Delete ad e).err = some (cantDeleteError e) ∧
    (Delete ad e).adapterInvoked = false ∧
    (Update ad syncPeriod now e).adapterInvoked = false ∧
    (freshGuard syncPeriod now e = false →
      (Update ad syncPeriod now e).err = some (cantUpdateError e)) ∧
    (freshGuard syncPeriod now e = true → (Update ad syncPeriod now e).err = none) := by
  refine ⟨by simp [Delete, h], by simp [Delete, h], ?_, ?_, ?_⟩
  · cases hf : freshGuard syncPeriod now e <;> simp [Update, hf, h]
  · intro hf; simp [Update, hf, h]
  · intro hf; simp [update_fresh_eq ad hf]

/-- C1 witness: a concrete entity with empty Konnect ID on which both
operations return the missing-Konnect-ID errors. -/
theorem C1_witness :
    (Delete idAdapters eNilStatus).err = some (cantDeleteError eNilStatus) ∧
    (Update idAdapters 100 0 eNilStatus).err = some (cantUpdateError eNilStatus) :=
  ⟨(C1_missing_id_no_adapter idAdapters 100 0 eNilStatus (by decide)).1,
   (C1_missing_id_no_adapter idAdapters 100 0 eNilStatus (by decide)).2.2.2.1 (by decide)⟩

/-- C2: Update skips the adapter and returns nil error exactly when the
Programmed condition exists with status True, the canonical Programmed
reason, observed generation equal to the entity's generation, and
elapsed time since its last transition at most syncPeriod; in
particular, with a non-empty Konnect ID and a registered kind, an
absent condition or a bumped generation makes Update dispatch to the
adapter. -/
theorem C2_staleness_gate (ad : Adapters) (syncPeriod now : Int) (e : Entity) :
    (((Update ad syncPeriod now e).adapterInvoked = false ∧
      (Update ad syncPeriod now e).err = none) ↔
      ∃ c, getCondition KonnectEntityProgrammedConditionType e.conditions = some c ∧
        c.status = ConditionTrue ∧
        c.reason = KonnectEntityProgrammedReasonProgrammed ∧
        c.observedGeneration = e.generation ∧
        timeSince now c.lastTransitionTime ≤ syncPeriod) ∧
    (getCondition KonnectEntityProgrammedConditionType e.conditions = none →
      getKonnectID e.konnectStatus ≠ "" → e.kind ≠ .unregistered →
      (Update ad syncPeriod now e).adapterInvoked = true) ∧
    (∀ c, getCondition KonnectEntityProgrammedConditionType e.conditions = some c →
      c.observedGeneration ≠ e.generation →
      getKonnectID e.konnectStatus ≠ "" → e.kind ≠ .unregistered →
      (Update ad syncPeriod now e).adapterInvoked = true) := by
  refine ⟨(update_noop_iff ad syncPeriod now e).trans (freshGuard_iff syncPeriod now e), ?_, ?_⟩
  · intro hc hid hk
    have hf : freshGuard syncPeriod now e = false := by
      simp [freshGuard, hc]
    exact update_dispatch_invoked ad hf hid hk
  · intro c hc hg hid hk
    have hf : freshGuard syncPeriod now e = false := by
      cases hfg : freshGuard syncPeriod now e with
      | false => rfl
      | true =>
        obtain ⟨c', hc', _, _, hgen, _⟩ := (freshGuard_iff syncPeriod now e).mp hfg
        rw [hc] at hc'
        injection hc' with hcc
        subst hcc
        exact absurd hgen hg
    exact update_dispatch_invoked ad hf hid hk

/-- C2 witness: with Konnect ID "abc" and a registered kind, an entity
without a Programmed condition and an entity whose generation was bumped
past the condition's observed generation both make Update dispatch. -/
theorem C2_witness :
    (Update idAdapters 100 7 eNoCond).adapterInvoked = true ∧
    (Update idAdapters 100 7 eBumped).adapterInvoked = true :=
  ⟨(C2_staleness_gate idAdapters 100 7 eNoCond).2.1 (by decide) (by decide) (by decide),
   (C2_staleness_gate idAdapters 100 7 eBumped).2.2 (programmedCond 1 0)
     (by decide) (by decide) (by decide) (by decide)⟩

/-- C3, counterexample: Delete on an entity with empty Konnect ID fails
yet emits no telemetry record, and the fresh early-return of Update
emits none either, refuting "emitted exactly once on every exit path —
... precondition failure, and fresh early-return alike". -/
theorem C3_counterexample :
    (Delete idAdapters eFreshNoID).err.isSome = true ∧
    (Delete idAdapters eFreshNoID).telemetry = [] ∧
    (Update idAdapters 100 50 eFreshNoID).telemetry = [] := by
  decide

/-- C3 (amended): the telemetry record is emitted exactly once on every
path that reaches the dispatch switch (success, adapter failure and
unsupported kind alike) provided the entity's Konnect status is non-nil
at return time; the Update/Delete missing-Konnect-ID paths and the
Update fresh early-return emit no record (their checks precede the
deferred telemetry registration). -/
theorem C3_telemetry (ad : Adapters) (syncPeriod now : Int) (e : Entity) :
    ((Create ad e).final.konnectStatus.isSome = true → (Create ad e).telemetry.length = 1) ∧
    (getKonnectID e.konnectStatus = "" → (Delete ad e).telemetry = []) ∧
    (getKonnectID e.konnectStatus ≠ "" → (Delete ad e).final.konnectStatus.isSome = true →
      (Delete ad e).telemetry.length = 1) ∧
    (freshGuard syncPeriod now e = true → (Update ad syncPeriod now e).telemetry = []) ∧
    (freshGuard syncPeriod now e = false → getKonnectID e.konnectStatus = "" →
      (Update ad syncPeriod now e).telemetry = []) ∧
    (freshGuard syncPeriod now e = false → getKonnectID e.konnectStatus ≠ "" →
      (Update ad syncPeriod now e).final.konnectStatus.isSome = true →
      (Update ad syncPeriod now e).telemetry.length = 1) := by
  refine ⟨?_, ?_, ?_, ?_, ?_, ?_⟩
  · intro h
    rcases e with ⟨k, ns, nm, g, cs, st⟩
    cases k <;> simp only [Create] at h ⊢ <;> exact logOpComplete_length h
  · intro hid; simp [Delete, hid]
  · intro hid h
    rcases e with ⟨k, ns, nm, g, cs, st⟩
    cases k <;> simp only [Delete, if_neg hid] at h ⊢ <;> exact logOpComplete_length h
  · intro hf; simp [update_fresh_eq ad hf]
  · intro hf hid; simp [Update, hf, hid]
  · intro hf hid h
    rcases e with ⟨k, ns, nm, g, cs, st⟩
    cases k <;> simp only [Update, hf, if_neg hid, Bool.false_eq_true, if_false] at h ⊢ <;>
      exact logOpComplete_length h

/-- C3 witness: a successful Create and a dispatched Update each emit
exactly one record. -/
theorem C3_witness :
    (Create idAdapters eFresh).telemetry.length = 1 ∧
    (Update idAdapters 100 7 eNoCond).telemetry.length = 1 :=
  ⟨(C3_telemetry idAdapters 100 7 eFresh).1 (by decide),
   (C3_telemetry idAdapters 100 7 eNoCond).2.2.2.2.2 (by decide) (by decide) (by decide)⟩

/-- C4: the source passes client.ObjectKeyFromObject(e) to the %T verb
and the entity pointer to the %q verb (arguments swapped relative to the
verbs, compare the missing-Konnect-ID messages of the same file).  At
the failing input (adapter failure during Update on the entity with key
default/svc and Konnect ID "abc") the normalized message carries the
operation kind, and the identity "abc" only as a field of the reflective
struct dump, but the key segment is the constant type name
types.NamespacedName for every key and the key default/svc never
appears; the message shape the spec describes would contain it. -/
theorem C4_swapped_format_arguments :
    (∀ k : ObjectKey, goFmtTypeOfObjectKey k = "types.NamespacedName") ∧
    c4actual.isSome = true ∧
    strContains (msgOf c4actual) "update" = true ∧
    strContains (msgOf c4actual) "abc" = true ∧
    strContains (msgOf c4actual) "types.NamespacedName" = true ∧
    (objectKeyFromObject eFresh).render = "default/svc" ∧
    strContains (msgOf c4actual) "default/svc" = false ∧
    strContains (wrapErrSpecMessage .update eFresh) "default/svc" = true :=
  ⟨fun _ => rfl, by decide⟩

/-- C5, counterexample: with syncPeriod equal to the maximal int64
duration and the Programmed condition's last transition one nanosecond
in the future of the clock, the call is fresh (elapsed -1 is at most
syncPeriod) yet the int64 subtraction syncPeriod - elapsed overflows and
the returned requeue hint is negative, refuting "this value is
non-negative for every fresh call". -/
theorem C5_counterexample :
    freshGuard (2 ^ 63 - 1) 0 eFuture = true ∧
    (Update idAdapters (2 ^ 63 - 1) 0 eFuture).adapterInvoked = false ∧
    (Update idAdapters (2 ^ 63 - 1) 0 eFuture).err = none ∧
    (Update idAdapters (2 ^ 63 - 1) 0 eFuture).requeueAfter < 0 := by
  decide

/-- C5 (amended): when Update returns early as fresh the requeue hint is
syncPeriod minus the elapsed time and the adapter is not invoked; for
every fresh call whose elapsed time is non-negative the hint is
non-negative (with int64 arithmetic a negative elapsed time combined
with a near-maximal syncPeriod can overflow and yield a negative hint);
the hint strictly decreases as elapsed time advances toward syncPeriod,
reaches zero exactly at syncPeriod, and every path where Update
dispatches to an adapter returns a zero hint. -/
theorem C5_requeue_hint (ad : Adapters) (syncPeriod : Int)
    (hs : syncPeriod ≤ 2 ^ 63 - 1) :
    (∀ now (e : Entity), freshGuard syncPeriod now e = true →
      0 ≤ timeFromLastUpdate now e →
      (Update ad syncPeriod now e).adapterInvoked = false ∧
      (Update ad syncPeriod now e).err = none ∧
      (Update ad syncPeriod now e).requeueAfter = syncPeriod - timeFromLastUpdate now e ∧
      0 ≤ (Update ad syncPeriod now e).requeueAfter) ∧
    (∀ now1 now2 (e1 e2 : Entity),
      freshGuard syncPeriod now1 e1 = true → freshGuard syncPeriod now2 e2 = true →
      0 ≤ timeFromLastUpdate now1 e1 →
      timeFromLastUpdate now1 e1 < timeFromLastUpdate now2 e2 →
      (Update ad syncPeriod now2 e2).requeueAfter <
        (Update ad syncPeriod now1 e1).requeueAfter) ∧
    (∀ now (e : Entity), freshGuard syncPeriod now e = true →
      timeFromLastUpdate now e = syncPeriod →
      (Update ad syncPeriod now e).requeueAfter = 0) ∧
    (∀ now (e : Entity), (Update ad syncPeriod now e).adapterInvoked = true →
      (Update ad syncPeriod now e).requeueAfter = 0) := by
  have key : ∀ now (e : Entity), freshGuard syncPeriod now e = true →
      0 ≤ timeFromLastUpdate now e →
      (Update ad syncPeriod now e).requeueAfter = syncPeriod - timeFromLastUpdate now e := by
    intro now e hf he
    rw [update_fresh_eq ad hf]
    have hle := freshGuard_elapsed_le hf
    exact wrap64_eq_self (by linarith) (by linarith)
  refine ⟨?_, ?_, ?_, fun now e h => update_requeue_zero_of_invoked ad h⟩
  · intro now e hf he
    have hle := freshGuard_elapsed_le hf
    have hk := key now e hf he
    rw [update_fresh_eq ad hf] at hk ⊢
    exact ⟨rfl, rfl, hk, by rw [hk]; linarith⟩
  · intro now1 now2 e1 e2 hf1 hf2 he1 hlt
    rw [key now1 e1 hf1 he1, key now2 e2 hf2 (by linarith)]
    linarith
  · intro now e hf heq
    rw [update_fresh_eq ad hf, heq]
    simp only
    rw [sub_self]
    exact wrap64_eq_self (by norm_num) (by norm_num)

/-- C5 witness: concrete fresh calls at sync period 100 with elapsed
times 50, 60 and 100, and a dispatching call. -/
theorem C5_witness :
    (Update idAdapters 100 50 eFresh).requeueAfter = 100 - timeFromLastUpdate 50 eFresh ∧
    0 ≤ (Update idAdapters 100 50 eFresh).requeueAfter ∧
    (Update idAdapters 100 60 eFresh).requeueAfter <
      (Update idAdapters 100 50 eFresh).requeueAfter ∧
    (Update idAdapters 100 100 eFresh).requeueAfter = 0 ∧
    (Update idAdapters 100 7 eNoCond).requeueAfter = 0 :=
  ⟨((C5_requeue_hint idAdapters 100 (by norm_num)).1 50 eFresh (by decide) (by decide)).2.2.1,
   ((C5_requeue_hint idAdapters 100 (by norm_num)).1 50 eFresh (by decide) (by decide)).2.2.2,
   (C5_requeue_hint idAdapters 100 (by norm_num)).2.1 50 60 eFresh eFresh
     (by decide) (by decide) (by decide) (by decide),
   (C5_requeue_hint idAdapters 100 (by norm_num)).2.2.1 100 eFresh (by decide) (by decide),
   (C5_requeue_hint idAdapters 100 (by norm_num)).2.2.2 7 eNoCond (by decide)⟩

/-- C6, counterexample: an entity of a kind with no switch case whose
Programmed condition is fresh makes Update return nil error without any
unsupported-kind failure, refuting "Create, Update, and Delete each fail
with an unsupported-kind error". -/
theorem C6_counterexample :
    eUnreg.kind = .unregistered ∧
    (Update idAdapters 100 50 eUnreg).err = none ∧
    (Update idAdapters 100 50 eUnreg).adapterInvoked = false := by
  decide

/-- C6 (amended): for an entity kind with no switch case, Create always
fails with the unsupported-entity-type error, returns nil and leaves the
entity unchanged; Delete invokes no adapter and leaves the entity
unchanged, failing with the unsupported-entity-type error when the
Konnect ID is non-empty and with the missing-Konnect-ID error otherwise;
Update invokes no adapter and leaves the entity unchanged, failing with
the unsupported-entity-type error when it is neither fresh nor missing
the Konnect ID. -/
theorem C6_unsupported_kind (ad : Adapters) (syncPeriod now : Int) (e : Entity)
    (hk : e.kind = .unregistered) :
    ((Create ad e).err = some (unsupportedEntityTypeError e.kind) ∧
      (Create ad e).ret = .null ∧ (Create ad e).adapterInvoked = false ∧
      (Create ad e).final = e) ∧
    ((Delete ad e).adapterInvoked = false ∧ (Delete ad e).final = e ∧
      (getKonnectID e.konnectStatus ≠ "" →
        (Delete ad e).err = some (unsupportedEntityTypeError e.kind)) ∧
      (getKonnectID e.konnectStatus = "" →
        (Delete ad e).err = some (cantDeleteError e))) ∧
    ((Update ad syncPeriod now e).adapterInvoked = false ∧
      (Update ad syncPeriod now e).final = e ∧
      (freshGuard syncPeriod now e = false → getKonnectID e.konnectStatus ≠ "" →
        (Update ad syncPeriod now e).err = some (unsupportedEntityTypeError e.kind))) := by
  rcases e with ⟨k, ns, nm, g, cs, st⟩
  simp only [Entity.kind] at hk
  subst hk
  refine ⟨by simp [Create], ⟨?_, ?_, ?_, ?_⟩, ⟨?_, ?_, ?_⟩⟩
  · by_cases hid : getKonnectID st = "" <;> simp [Delete, hid]
  · by_cases hid : getKonnectID st = "" <;> simp [Delete, hid]
  · intro hid
    simp [Delete, hid]
  · intro hid
    simp [Delete, hid]
  · cases hf : freshGuard syncPeriod now (Entity.mk .unregistered ns nm g cs st) with
    | true => simp [update_fresh_eq ad hf]
    | false =>
      by_cases hid : getKonnectID st = "" <;> simp [Update, hf, hid]
  · cases hf : freshGuard syncPeriod now (Entity.mk .unregistered ns nm g cs st) with
    | true => simp [update_fresh_eq ad hf]
    | false =>
      by_cases hid : getKonnectID st = "" <;> simp [Update, hf, hid]
  · intro hf hid
    simp [Update, hf, hid]

/-- C6 witness: a concrete stale unregistered-kind entity with non-empty
Konnect ID on which all three operations report the
unsupported-entity-type error. -/
theorem C6_witness :
    (Create idAdapters eUnreg).err = some (unsupportedEntityTypeError eUnreg.kind) ∧
    (Delete idAdapters eUnreg).err = some (unsupportedEntityTypeError eUnreg.kind) ∧
    (Update idAdapters 100 200 eUnreg).err = some (unsupportedEntityTypeError eUnreg.kind) :=
  ⟨(C6_unsupported_kind idAdapters 100 200 eUnreg (by decide)).1.1,
   ((C6_unsupported_kind idAdapters 100 200 eUnreg (by decide)).2.1.2.2.1) (by decide),
   ((C6_unsupported_kind idAdapters 100 200 eUnreg (by decide)).2.2.2.2) (by decide) (by decide)⟩

/-- C7: the error normalizer returns nil exactly when the adapter error
is nil, and every non-nil adapter error is wrapped so that the original
error remains reachable through the unwrap chain of the returned error. -/
theorem C7_error_normalizer (kind : EntityKind) (op : Op) (e : Option Entity) :
    (∀ errOpt : Option GoError,
      wrapErrIfKonnectOpFailed kind errOpt op e = none ↔ errOpt = none) ∧
    (∀ er : GoError, ∃ w : GoError,
      wrapErrIfKonnectOpFailed kind (some er) op e = some w ∧ er ∈ w.chain) := by
  constructor
  · intro errOpt
    cases errOpt with
    | none => simp [wrapErrIfKonnectOpFailed]
    | some er => cases e <;> simp [wrapErrIfKonnectOpFailed]
  · intro er
    cases e with
    | none =>
      exact ⟨_, rfl, List.mem_cons_of_mem _ (GoError.self_mem_chain er)⟩
    | some x =>
      exact ⟨_, rfl, List.mem_cons_of_mem _ (GoError.self_mem_chain er)⟩

/-- C8: for every kind with a switch case, Create returns the very
entity handle it was given, whatever the adapter returns; on the
default branch it returns the nil handle together with an error. -/
theorem C8_create_returns_handle (ad : Adapters) (e : Entity) :
    (e.kind ≠ .unregistered → (Create ad e).ret = .same) ∧
    (e.kind = .unregistered →
      (Create ad e).ret = .null ∧ (Create ad e).err.isSome = true) := by
  rcases e with ⟨k, ns, nm, g, cs, st⟩
  cases k <;> simp [Create]

/-- C8 witness: Create returns the input handle on a registered kind for
succeeding and failing adapters alike, and the nil handle on the
stand-in unregistered kind. -/
theorem C8_witness :
    (Create idAdapters eFresh).ret = .same ∧
    (Create failAdapters eFresh).ret = .same ∧
    (Create idAdapters eUnreg).ret = .null :=
  ⟨(C8_create_returns_handle idAdapters eFresh).1 (by decide),
   (C8_create_returns_handle failAdapters eFresh).1 (by decide),
   ((C8_create_returns_handle idAdapters eUnreg).2 (by decide)).1⟩

/-- C9: on every path of its own — precondition failure, fresh
early-return, unsupported kind — the dispatch core leaves the entity
exactly as given, and on every path that does invoke an adapter the
resulting entity state is precisely the adapter's output: every mutation
is the kind-specific adapter's. -/
theorem C9_frame (ad : Adapters) (syncPeriod now : Int) (e : Entity) :
    ((Create ad e).adapterInvoked = false → (Create ad e).final = e) ∧
    ((Create ad e).adapterInvoked = true → (Create ad e).final = (ad.create e.kind e).1) ∧
    ((Delete ad e).adapterInvoked = false → (Delete ad e).final = e) ∧
    ((Delete ad e).adapterInvoked = true → (Delete ad e).final = (ad.delete e.kind e).1) ∧
    ((Update ad syncPeriod now e).adapterInvoked = false →
      (Update ad syncPeriod now e).final = e) ∧
    ((Update ad syncPeriod now e).adapterInvoked = true →
      (Update ad syncPeriod now e).final = (ad.update e.kind e).1) := by
  rcases e with ⟨k, ns, nm, g, cs, st⟩
  by_cases hid : getKonnectID st = "" <;>
    cases hf : freshGuard syncPeriod now (Entity.mk k ns nm g cs st) <;>
      cases k <;>
        refine ⟨?_, ?_, ?_, ?_, ?_, ?_⟩ <;> intro h <;>
          simp_all [Create, Delete, Update]

/-- C9 witness: a fresh Update leaves the entity untouched, and a
dispatched Create ends in the adapter's output. -/
theorem C9_witness :
    (Update idAdapters 100 50 eFresh).final = eFresh ∧
    (Create idAdapters eFresh).final = (idAdapters.create eFresh.kind eFresh).1 :=
  ⟨(C9_frame idAdapters 100 50 eFresh).2.2.2.2.1 (by decide),
   (C9_frame idAdapters 100 50 eFresh).2.1 (by decide)⟩

/-- C10: when the entity's Konnect status accessor returns nil the
telemetry routine returns without emitting a record, so an operation
whose entity ends with nil Konnect status produces no telemetry output. -/
theorem C10_nil_status_no_telemetry (ad : Adapters) (syncPeriod now : Int) (op : Op)
    (e : Entity) :
    (e.konnectStatus = none → logOpComplete op e = []) ∧
    ((Create ad e).final.konnectStatus = none → (Create ad e).telemetry = []) ∧
    ((Delete ad e).final.konnectStatus = none → (Delete ad e).telemetry = []) ∧
    ((Update ad syncPeriod now e).final.konnectStatus = none →
      (Update ad syncPeriod now e).telemetry = []) := by
  refine ⟨fun h => logOpComplete_eq_nil h, ?_, ?_, ?_⟩
  · intro h
    rcases e with ⟨k, ns, nm, g, cs, st⟩
    cases k <;> simp only [Create] at h ⊢ <;> exact logOpComplete_eq_nil h
  · intro h
    by_cases hid : getKonnectID e.konnectStatus = ""
    · simp [Delete, hid]
    · rcases e with ⟨k, ns, nm, g, cs, st⟩
      cases k <;> simp only [Delete, if_neg hid] at h ⊢ <;> exact logOpComplete_eq_nil h
  · intro h
    cases hf : freshGuard syncPeriod now e with
    | true => simp [update_fresh_eq ad hf]
    | false =>
      by_cases hid : getKonnectID e.konnectStatus = ""
      · simp [Update, hf, hid]
      · rcases e with ⟨k, ns, nm, g, cs, st⟩
        cases k <;>
          simp only [Update, hf, Bool.false_eq_true, if_false, if_neg hid] at h ⊢ <;>
            exact logOpComplete_eq_nil h

/-- C10 witness: a dispatched Create on an entity with nil Konnect
status emits no telemetry record. -/
theorem C10_witness :
    logOpComplete .create eNilStatus = [] ∧
    (Create idAdapters eNilStatus).telemetry = [] :=
  ⟨(C10_nil_status_no_telemetry idAdapters 0 0 .create eNilStatus).1 (by decide),
   (C10_nil_status_no_telemetry idAdapters 0 0 .create eNilStatus).2.1 (by decide)⟩

end KonnectOps
